import Mathlib

/-!
Shallow embedding of the golang-chat client (`gui.go`, current revision, plus
the earlier revision of the same file) for verification of its session core:
the inbound-message visibility router, the reconnection retry loop, the
channel directory, precondition checks on user actions, and settings loading.

Machine `int64` ids are embedded as `Int` (the code only compares them, so
overflow never matters).  Stateful handlers are embedded as pure functions
from the relevant state fields to results plus effect descriptions
(emitted events, user-facing notifications, started background tasks).
-/

/- ### Data model (types.go-level records, as used by gui.go) -/

structure User where
  Id : Int
  Username : String
  deriving Repr, DecidableEq

structure UserPublicInfo where
  Id : Int
  Username : String
  deriving Repr, DecidableEq

structure Channel where
  Id : Int
  Title : String
  deriving Repr, DecidableEq

structure SavedMessage where
  UserData : UserPublicInfo
  ChatId : Int
  Text : String
  deriving Repr, DecidableEq

/-- The fields of `ChatApplication` (gui.go) that the session core reads:
connection flag, current user, login flag, currently open chat, and the
known-channels directory.  UI widget handles are omitted (pure presentation). -/
structure ChatApplication where
  Connected : Bool
  CurrentUser : User
  LoggedIn : Bool
  CurrentChatId : Int
  Channels : List Channel
  deriving Repr, DecidableEq

/-- Modelled from the spec: the reserved group/broadcast channel id.  The
constant `GROUP_CHAT_ID` is declared in a repository file not under `src/`;
the spec fixes it as "the reserved group/broadcast id (constant, e.g. 0)" and
gui.go initialises `CurrentChatId = 0 // main channel`. -/
def GROUP_CHAT_ID : Int := 0

def GROUP_CHANNEL_TITLE : String := "MAIN"

def NOTES_CHANNEL_TITLE : String := "NOTES"

def DEFAULT_HOST : String := "localhost"

def DEFAULT_PORT : Int := 3811

/-- Modelled from the spec: `SavedMessage.getChatType`, defined in a
repository file not under `src/`.  Spec section 3: a message is "classified by
chat kind using only `chatId`: `chatId == groupId` → group message; otherwise
→ private". -/
def SavedMessage.getChatType (msg : SavedMessage) : String :=
  if msg.ChatId == GROUP_CHAT_ID then "group" else "private"

/- ### The `/message` handler (gui.go, initClientCallbacks, current revision) -/

/-- The `/message` callback of `initClientCallbacks` (gui.go).  Returns
whether `addMessageToList` is invoked for the inbound message, i.e. whether
the message is displayed in the current view. -/
def onMessage (app : ChatApplication) (msg : SavedMessage) : Bool :=
  let currentChatId := app.CurrentChatId
  let currentUserId := app.CurrentUser.Id
  let chatType := msg.getChatType
  let isMessageFromMe := msg.UserData.Id == app.CurrentUser.Id
  let isMessageToMe := msg.ChatId == app.CurrentUser.Id
  let isNotesMessage := isMessageFromMe && isMessageToMe
  let groupDisplayed := chatType == "group" && app.CurrentChatId == GROUP_CHAT_ID
  let privateDisplayed :=
    chatType == "private" &&
      (if isNotesMessage && currentChatId == currentUserId then true
       else if isMessageFromMe && currentChatId == msg.ChatId then true
       else if isMessageToMe && currentChatId == msg.UserData.Id then true
       else false)
  groupDisplayed || privateDisplayed

/-- The `/message` callback of the earlier revision of gui.go
(`src/unnamed/part_000`): a message is displayed iff the currently open chat
id equals the message's chat id. -/
def onMessageOld (currentChatId : Int) (msg : SavedMessage) : Bool :=
  currentChatId == msg.ChatId

/-- C1: the `/message` handler implements exactly the five-branch router:
group messages are displayed iff the group chat is open; private notes
messages iff the viewer's own channel is open; private messages authored by
the viewer iff their destination chat is open; private messages addressed to
the viewer iff the author's channel is open; all other private messages are
never displayed. -/
theorem C1_message_router (app : ChatApplication) (msg : SavedMessage) :
    onMessage app msg = true ↔
      (if msg.ChatId = GROUP_CHAT_ID then
        app.CurrentChatId = GROUP_CHAT_ID
      else if msg.UserData.Id = app.CurrentUser.Id ∧ msg.ChatId = app.CurrentUser.Id then
        app.CurrentChatId = app.CurrentUser.Id
      else if msg.UserData.Id = app.CurrentUser.Id then
        app.CurrentChatId = msg.ChatId
      else if msg.ChatId = app.CurrentUser.Id then
        app.CurrentChatId = msg.UserData.Id
      else False) := by
  simp only [onMessage, SavedMessage.getChatType]
  by_cases hg : msg.ChatId = GROUP_CHAT_ID <;>
    by_cases hf : msg.UserData.Id = app.CurrentUser.Id <;>
      by_cases ht : msg.ChatId = app.CurrentUser.Id <;>
        by_cases hc : app.CurrentChatId = app.CurrentUser.Id <;>
          simp_all [beq_iff_eq]

/-- C10: a concrete input separating the two revisions of the `/message`
handler: a private message addressed to the viewer (id 7) while the viewer
has the author's channel (id 9) open is displayed by the current revision but
not by the earlier revision's predicate `CurrentChatId == msg.ChatId`. -/
theorem C10_revisions_differ :
    onMessage
        { Connected := true, CurrentUser := ⟨7, "viewer"⟩, LoggedIn := true,
          CurrentChatId := 9, Channels := [] }
        ⟨⟨9, "friend"⟩, 7, "hello"⟩ = true
    ∧ onMessageOld 9 ⟨⟨9, "friend"⟩, 7, "hello"⟩ = false := by
  decide

/- ### The reconnection retry loop (gui.go, startReconnectionTrying) -/

/-- The body of `startReconnectionTrying`'s `for i := 0; i < 10; i++` loop,
made structural on the remaining iteration count `fuel` (initially 10).
`dial i` abstracts the boolean result of `chatApp.connect(host, port, true)`
at loop index `i`; `t` is the wall time (in seconds) elapsed since the loop
started counting (the call to `startReconnectionTrying`).  Each iteration
first sleeps `i` minutes (skipped at `i = 0`), then attempts to reconnect.
Returns the elapsed times at which the attempts fired, and whether the
"Connection restored!" dialog was shown (the loop `return`s on success). -/
def reconnectFrom (dial : Nat → Bool) : Nat → Nat → Nat → List Nat × Bool
  | 0, _, _ => ([], false)
  | fuel + 1, i, t =>
    let t1 := t + (if i = 0 then 0 else 60 * i)
    if dial i then ([t1], true)
    else
      let r := reconnectFrom dial fuel (i + 1) t1
      (t1 :: r.1, r.2)

/-- `startReconnectionTrying` (gui.go): sleeps 10 seconds, then runs the
retry loop with at most 10 attempts. -/
def startReconnectionTrying (dial : Nat → Bool) : List Nat × Bool :=
  reconnectFrom dial 10 0 10

/-- In the loop starting at index `i`, the delay slept before iteration `i`
equals `60 * i` seconds (at `i = 0` the sleep is skipped, and `60 * 0 = 0`). -/
theorem reconnect_delay_eq (i : Nat) : (if i = 0 then 0 else 60 * i) = 60 * i := by
  by_cases h : i = 0 <;> simp [h]

/-- Elapsed time of the `(j+1)`-st attempt produced by `reconnectFrom` from
state `(i, t)`: the start time plus the delays of iterations `i, …, i + j`. -/
theorem reconnectFrom_get? (dial : Nat → Bool) :
    ∀ (fuel j i t : Nat), j < ((reconnectFrom dial fuel i t).1).length →
      ((reconnectFrom dial fuel i t).1).get? j
        = some (t + 60 * (Finset.range (j + 1)).sum (fun m => i + m)) := by
  intro fuel
  induction fuel with
  | zero => intro j i t hj; simp [reconnectFrom] at hj
  | succ fuel ih =>
    intro j i t hj
    simp only [reconnectFrom, reconnect_delay_eq] at hj ⊢
    by_cases hd : dial i = true
    · simp only [hd, if_true] at hj ⊢
      cases j with
      | zero => simp [Finset.sum_range_one]
      | succ j => simp at hj
    · simp only [hd, if_false, Bool.false_eq_true] at hj ⊢
      cases j with
      | zero => simp [Finset.sum_range_one]
      | succ j =>
        simp only [List.length_cons, Nat.succ_lt_succ_iff] at hj
        rw [List.get?_cons_succ, ih j (i + 1) (t + 60 * i) hj]
        congr 1
        rw [Finset.sum_range_succ' (fun m => i + m) (j + 1)]
        have hsh : (Finset.range (j + 1)).sum (fun k => i + (k + 1))
            = (Finset.range (j + 1)).sum (fun k => (i + 1) + k) :=
          Finset.sum_congr rfl (fun k _ => by omega)
        rw [hsh]
        ring

/-- Elapsed time at which the `k`-th reconnection attempt fires (list index
`k - 1`), for any run of the loop: 10 seconds plus the delays of the first
`k - 1` iterations, i.e. `10 + 60 * (0 + 1 + ⋯ + (k-1))` seconds. -/
theorem startReconnectionTrying_get? (dial : Nat → Bool) (j : Nat)
    (hj : j < ((startReconnectionTrying dial).1).length) :
    ((startReconnectionTrying dial).1).get? j
      = some (10 + 60 * (Finset.range (j + 1)).sum (fun m => m)) := by
  have h := reconnectFrom_get? dial 10 j 0 10 hj
  simpa [startReconnectionTrying] using h

/-- C2 (amended): attempt `k` (1-indexed, `k ≤` the number of attempts that
actually fired) of the retry loop fires at exactly `10` seconds plus
`sum(0..k-1) = sum(1..k-1)` minutes of elapsed time from the start of the
retry loop — i.e. the delay preceding attempt `i` is an additional `i - 1`
minutes after the initial 10-second delay — and the inter-attempt gaps are
strictly increasing. -/
theorem C2_retry_schedule (dial : Nat → Bool) (k : Nat) (h1 : 1 ≤ k)
    (h2 : k ≤ ((startReconnectionTrying dial).1).length) :
    ((startReconnectionTrying dial).1).get? (k - 1)
      = some (10 + 60 * (Finset.range k).sum (fun m => m))
    ∧ (k + 2 ≤ ((startReconnectionTrying dial).1).length →
        ((startReconnectionTrying dial).1).getD k 0
            - ((startReconnectionTrying dial).1).getD (k - 1) 0
          < ((startReconnectionTrying dial).1).getD (k + 1) 0
            - ((startReconnectionTrying dial).1).getD k 0) := by
  have hk : k - 1 + 1 = k := by omega
  constructor
  · have h := startReconnectionTrying_get? dial (k - 1) (by omega)
    rwa [hk] at h
  · intro h3
    have e1 := startReconnectionTrying_get? dial (k - 1) (by omega)
    have e2 := startReconnectionTrying_get? dial k (by omega)
    have e3 := startReconnectionTrying_get? dial (k + 1) (by omega)
    rw [hk] at e1
    rw [List.getD_eq_getD_get?, List.getD_eq_getD_get?, List.getD_eq_getD_get?,
      e1, e2, e3, Option.getD_some, Option.getD_some, Option.getD_some]
    rw [Finset.sum_range_succ (fun m => m) (k + 1), Finset.sum_range_succ (fun m => m) k]
    omega

/-- Witness for C2: in the all-attempts-fail run, attempt 2 fires at elapsed
time 70 seconds (10 seconds plus 1 minute), and the gap from attempt 2 to
attempt 3 (2 minutes) exceeds the gap from attempt 1 to attempt 2 (1 minute). -/
theorem C2_retry_schedule_witness :
    ((startReconnectionTrying (fun _ => false)).1).get? 1 = some 70
    ∧ ((startReconnectionTrying (fun _ => false)).1).getD 2 0
          - ((startReconnectionTrying (fun _ => false)).1).getD 1 0
        < ((startReconnectionTrying (fun _ => false)).1).getD 3 0
          - ((startReconnectionTrying (fun _ => false)).1).getD 2 0 := by
  have h := C2_retry_schedule (fun _ => false) 2 (by decide)
    (by show 2 ≤ ((startReconnectionTrying (fun _ => false)).1).length; decide)
  refine ⟨?_, h.2 (by decide)⟩
  have h1 := h.1
  simpa using h1

/-- C2 as frozen is refuted: the claim asserts attempt `k` does not fire
before `10` seconds plus `sum(1..k)` minutes, but in the all-attempts-fail
run the first attempt fires at elapsed time 10 seconds, strictly before
`10 + 60 * 1 = 70` seconds. -/
theorem C2_counterexample :
    ((startReconnectionTrying (fun _ => false)).1).get? 0 = some 10
    ∧ 10 < 10 + 60 * 1 := by
  decide

/-- The retry loop performs at most `fuel` attempts. -/
theorem reconnectFrom_length_le (dial : Nat → Bool) :
    ∀ fuel i t, ((reconnectFrom dial fuel i t).1).length ≤ fuel := by
  intro fuel
  induction fuel with
  | zero => intro i t; simp [reconnectFrom]
  | succ fuel ih =>
    intro i t
    simp only [reconnectFrom]
    by_cases hd : dial i = true
    · simp [hd]
    · simp only [hd, if_false, Bool.false_eq_true, List.length_cons]
      exact Nat.succ_le_succ (ih _ _)

/-- If every attempt in range fails, the loop runs all `fuel` attempts and
shows no "Connection restored!" dialog. -/
theorem reconnectFrom_all_fail (dial : Nat → Bool) :
    ∀ fuel i t, (∀ m, i ≤ m → m < i + fuel → dial m = false) →
      (reconnectFrom dial fuel i t).2 = false
      ∧ ((reconnectFrom dial fuel i t).1).length = fuel := by
  intro fuel
  induction fuel with
  | zero => intro i t _; simp [reconnectFrom]
  | succ fuel ih =>
    intro i t h
    have hd : dial i = false := h i (Nat.le_refl i) (by omega)
    simp only [reconnectFrom, hd, Bool.false_eq_true, if_false, List.length_cons]
    have := ih (i + 1) (t + (if i = 0 then 0 else 60 * i)) (fun m hm1 hm2 => h m (by omega) (by omega))
    exact ⟨this.1, by omega⟩

/-- If the attempt at offset `d` is the first to succeed, the loop shows the
"Connection restored!" dialog and stops immediately: exactly `d + 1` attempts
fire. -/
theorem reconnectFrom_first_success (dial : Nat → Bool) :
    ∀ fuel d i t, d < fuel → dial (i + d) = true →
      (∀ m, m < d → dial (i + m) = false) →
      (reconnectFrom dial fuel i t).2 = true
      ∧ ((reconnectFrom dial fuel i t).1).length = d + 1 := by
  intro fuel
  induction fuel with
  | zero => intro d i t hd; omega
  | succ fuel ih =>
    intro d i t hdf hdial hprev
    cases d with
    | zero =>
      have hd : dial i = true := by simpa using hdial
      simp [reconnectFrom, hd]
    | succ d =>
      have hd : dial i = false := by simpa using hprev 0 (Nat.succ_pos d)
      simp only [reconnectFrom, hd, Bool.false_eq_true, if_false, List.length_cons]
      have hdial1 : dial (i + 1 + d) = true := by
        have : i + 1 + d = i + (d + 1) := by omega
        rwa [this]
      have hprev1 : ∀ m, m < d → dial (i + 1 + m) = false := by
        intro m hm
        have : i + 1 + m = i + (m + 1) := by omega
        rw [this]
        exact hprev (m + 1) (by omega)
      have := ih d (i + 1) (t + (if i = 0 then 0 else 60 * i)) (by omega) hdial1 hprev1
      exact ⟨this.1, by omega⟩

/-- C3: the retry loop terminates after at most 10 attempts; if every dial
fails it runs exactly 10 attempts and emits no "Connection restored!"
notification; and on the first successful reconnect (the success at index `d`
preceded only by failures) it emits the notification and stops at once, with
exactly `d + 1` attempts having fired. -/
theorem C3_retry_termination (dial : Nat → Bool) :
    ((startReconnectionTrying dial).1).length ≤ 10
    ∧ ((∀ m, m < 10 → dial m = false) →
        (startReconnectionTrying dial).2 = false
        ∧ ((startReconnectionTrying dial).1).length = 10)
    ∧ (∀ d, d < 10 → dial d = true → (∀ m, m < d → dial m = false) →
        (startReconnectionTrying dial).2 = true
        ∧ ((startReconnectionTrying dial).1).length = d + 1) := by
  refine ⟨reconnectFrom_length_le dial 10 0 10, ?_, ?_⟩
  · intro h
    exact reconnectFrom_all_fail dial 10 0 10 (fun m _ hm => h m (by omega))
  · intro d hd hdial hprev
    exact reconnectFrom_first_success dial 10 d 0 10 hd (by simpa using hdial)
      (fun m hm => by simpa using hprev m hm)

/-- Witness for C3: with the dial oracle that succeeds exactly at index 2,
the loop emits the restored notification and fires exactly 3 attempts; with
the always-failing oracle it fires all 10 attempts and stays silent. -/
theorem C3_retry_termination_witness :
    ((startReconnectionTrying (fun i => decide (i = 2))).2 = true
      ∧ ((startReconnectionTrying (fun i => decide (i = 2))).1).length = 2 + 1)
    ∧ ((startReconnectionTrying (fun _ => false)).2 = false
      ∧ ((startReconnectionTrying (fun _ => false)).1).length = 10) :=
  ⟨(C3_retry_termination (fun i => decide (i = 2))).2.2 2 (by decide) (by decide)
      (fun m hm => by simp only [decide_eq_false_iff_not]; omega),
    (C3_retry_termination (fun _ => false)).2.1 (fun m _ => rfl)⟩

/- ### connect (gui.go) -/

/-- The apostrophe character, used to spell the literal text of gui.go's
failure message. -/
def apos : String := String.singleton (Char.ofNat 39)

/-- The failure text built by `connect` (gui.go) via `fmt.Sprintf` on dial
failure, with the host, port and the dial error's description interpolated. -/
def connectFailInfo (host : String) (port : Int) (desc : String) : String :=
  "Can" ++ apos ++ "t connect to host \"" ++ host ++ ":" ++ toString port ++ "\"\n"
    ++ "Next try after: 10 sec\n" ++ "Description: " ++ desc ++ "\n"

/-- The observable outcome of one call to `connect` (gui.go): its boolean
return value, the user-facing notifications raised via `showError` in order,
and whether a background `startReconnectionTrying` goroutine was started. -/
structure ConnectEffects where
  result : Bool
  notifications : List String
  retryStarted : Bool
  deriving Repr, DecidableEq

/-- `connect(host, port, isReconnect)` (gui.go), with its I/O abstracted:
`dialErr` is the error of `gosocketio.Dial` (`none` on success),
`onDisconnErr` and `onConnErr` the errors of the two `client.On`
registrations.  On dial failure a first attempt (`isReconnect = false`) shows
the formatted failure info and spawns the retry loop; a retry shows nothing
and spawns nothing.  The registration-failure paths show the error and return
false; on full success `connect` returns true. -/
def connect (host : String) (port : Int) (isReconnect : Bool)
    (dialErr onDisconnErr onConnErr : Option String) : ConnectEffects :=
  match dialErr with
  | some e =>
    if !isReconnect then
      { result := false, notifications := [connectFailInfo host port e], retryStarted := true }
    else
      { result := false, notifications := [], retryStarted := false }
  | none =>
    match onDisconnErr with
    | some e => { result := false, notifications := [e], retryStarted := false }
    | none =>
      match onConnErr with
      | some e => { result := false, notifications := [e], retryStarted := false }
      | none => { result := true, notifications := [], retryStarted := false }

/-- C4: on dial failure `connect` returns false in every case; when it is not
itself a retry it raises exactly the one formatted failure notification and
starts the background retry loop, and when it is a retry it raises no
notification and starts no further loop. -/
theorem C4_connect_dial_failure (host : String) (port : Int) (isReconnect : Bool)
    (e : String) (onDisconnErr onConnErr : Option String) :
    (connect host port isReconnect (some e) onDisconnErr onConnErr).result = false
    ∧ (isReconnect = false →
        (connect host port isReconnect (some e) onDisconnErr onConnErr).notifications
            = [connectFailInfo host port e]
        ∧ (connect host port isReconnect (some e) onDisconnErr onConnErr).retryStarted = true)
    ∧ (isReconnect = true →
        (connect host port isReconnect (some e) onDisconnErr onConnErr).notifications = []
        ∧ (connect host port isReconnect (some e) onDisconnErr onConnErr).retryStarted = false) := by
  cases isReconnect <;> simp [connect]

/-- Witness for C4 at a concrete dial failure, on both values of the retry
flag. -/
theorem C4_connect_dial_failure_witness :
    (connect "localhost" 3811 false (some "refused") none none).result = false
    ∧ (connect "localhost" 3811 false (some "refused") none none).notifications
        = [connectFailInfo "localhost" 3811 "refused"]
    ∧ (connect "localhost" 3811 false (some "refused") none none).retryStarted = true
    ∧ (connect "localhost" 3811 true (some "refused") none none).notifications = []
    ∧ (connect "localhost" 3811 true (some "refused") none none).retryStarted = false :=
  ⟨(C4_connect_dial_failure "localhost" 3811 false "refused" none none).1,
    ((C4_connect_dial_failure "localhost" 3811 false "refused" none none).2.1 rfl).1,
    ((C4_connect_dial_failure "localhost" 3811 false "refused" none none).2.1 rfl).2,
    ((C4_connect_dial_failure "localhost" 3811 true "refused" none none).2.2 rfl).1,
    ((C4_connect_dial_failure "localhost" 3811 true "refused" none none).2.2 rfl).2⟩

/- ### Channel directory (gui.go: getChannelId, isChannelInList,
openChannelByUser, refreshChannelList) -/

/-- `getChannelId` (gui.go): scans the known channels for a matching title
first; only when no channel matches does it fall back to the notes title
(the viewer's own id) and finally to the group id. -/
def getChannelId (app : ChatApplication) (title : String) : Int :=
  match app.Channels.find? (fun channel => channel.Title == title) with
  | some channel => channel.Id
  | none =>
    if title == NOTES_CHANNEL_TITLE then app.CurrentUser.Id
    else GROUP_CHAT_ID

/-- C5 is refuted as frozen: the claim says resolving the notes title always
returns the viewer's own id, but `getChannelId` checks the channel directory
first, so a directory holding a channel titled "NOTES" with id 5 makes the
notes title resolve to 5, not to the viewer's id 7. -/
theorem C5_counterexample :
    getChannelId
        { Connected := true, CurrentUser := ⟨7, "viewer"⟩, LoggedIn := true,
          CurrentChatId := 0, Channels := [⟨5, "NOTES"⟩] }
        NOTES_CHANNEL_TITLE = 5
    ∧ (5 : Int) ≠ 7 := by
  decide

/-- C5 (amended): a title matching a known channel resolves to the first
matching channel's id; when no channel in the directory bears the title, the
notes title resolves to the viewer's own id and every other title (the group
title included) falls back to the group id — never an error. -/
theorem C5_resolve_title (app : ChatApplication) (title : String) :
    ((∀ c ∈ app.Channels, c.Title ≠ title) →
      getChannelId app title
        = (if title = NOTES_CHANNEL_TITLE then app.CurrentUser.Id else GROUP_CHAT_ID))
    ∧ (∀ c, app.Channels.find? (fun channel => channel.Title == title) = some c →
        getChannelId app title = c.Id) := by
  constructor
  · intro hnone
    have hfind : app.Channels.find? (fun channel => channel.Title == title) = none := by
      rw [List.find?_eq_none]
      intro c hc
      simp [hnone c hc]
    simp only [getChannelId, hfind]
    by_cases ht : title = NOTES_CHANNEL_TITLE <;> simp [ht]
  · intro c hc
    simp [getChannelId, hc]

/-- Witness for C5: with directory `[⟨3, "bob"⟩]` and viewer id 7, the title
"bob" resolves to 3, "NOTES" resolves to 7 and "MAIN" falls back to the group
id 0. -/
theorem C5_resolve_title_witness :
    getChannelId
        { Connected := true, CurrentUser := ⟨7, "viewer"⟩, LoggedIn := true,
          CurrentChatId := 0, Channels := [⟨3, "bob"⟩] } "bob" = 3
    ∧ getChannelId
        { Connected := true, CurrentUser := ⟨7, "viewer"⟩, LoggedIn := true,
          CurrentChatId := 0, Channels := [⟨3, "bob"⟩] } NOTES_CHANNEL_TITLE = 7
    ∧ getChannelId
        { Connected := true, CurrentUser := ⟨7, "viewer"⟩, LoggedIn := true,
          CurrentChatId := 0, Channels := [⟨3, "bob"⟩] } GROUP_CHANNEL_TITLE = 0 :=
  ⟨(C5_resolve_title
        { Connected := true, CurrentUser := ⟨7, "viewer"⟩, LoggedIn := true,
          CurrentChatId := 0, Channels := [⟨3, "bob"⟩] } "bob").2 ⟨3, "bob"⟩ (by decide),
    by
      have h := (C5_resolve_title
        { Connected := true, CurrentUser := ⟨7, "viewer"⟩, LoggedIn := true,
          CurrentChatId := 0, Channels := [⟨3, "bob"⟩] } NOTES_CHANNEL_TITLE).1
        (by decide)
      simpa using h,
    by
      have h := (C5_resolve_title
        { Connected := true, CurrentUser := ⟨7, "viewer"⟩, LoggedIn := true,
          CurrentChatId := 0, Channels := [⟨3, "bob"⟩] } GROUP_CHANNEL_TITLE).1
        (by decide)
      simpa [GROUP_CHANNEL_TITLE, NOTES_CHANNEL_TITLE, GROUP_CHAT_ID] using h⟩

/-- `isChannelInList` (gui.go): linear scan of the known channels by id. -/
def isChannelInList (channels : List Channel) (channelId : Int) : Bool :=
  channels.any (fun c => c.Id == channelId)

/-- The channel-directory step of `openChannelByUser` (gui.go): the viewer's
own id is the notes channel and adds no entry; otherwise an absent id is
appended as `Channel{user.Id, user.Username}` and a present id adds nothing.
(The `SetSelected` UI calls are presentation only.) -/
def openChannelByUserChannels (currentUserId : Int) (channels : List Channel)
    (user : UserPublicInfo) : List Channel :=
  if user.Id == currentUserId then channels
  else if isChannelInList channels user.Id then channels
  else channels ++ [⟨user.Id, user.Username⟩]

/-- After the directory step runs once for `user`, that user's id is present
in the directory or is the viewer's own id. -/
theorem openChannelByUserChannels_mem (currentUserId : Int) (channels : List Channel)
    (user : UserPublicInfo) :
    user.Id = currentUserId
    ∨ isChannelInList (openChannelByUserChannels currentUserId channels user) user.Id = true := by
  by_cases h1 : user.Id = currentUserId
  · exact Or.inl h1
  · right
    simp only [openChannelByUserChannels, beq_iff_eq, h1, if_false]
    by_cases h2 : isChannelInList channels user.Id = true
    · rw [if_pos h2]; exact h2
    · rw [if_neg h2]
      simp [isChannelInList]

/-- C6: the directory step of `openChannelByUser` is idempotent — running it
a second time with the same identity leaves the directory unchanged (hence
of unchanged length) — and it never appends an identity whose id is already
present or equals the viewer's own id. -/
theorem C6_ensureChannel_idempotent (currentUserId : Int) (channels : List Channel)
    (user : UserPublicInfo) :
    openChannelByUserChannels currentUserId
        (openChannelByUserChannels currentUserId channels user) user
      = openChannelByUserChannels currentUserId channels user
    ∧ ((openChannelByUserChannels currentUserId
          (openChannelByUserChannels currentUserId channels user) user).length
        = (openChannelByUserChannels currentUserId channels user).length)
    ∧ ((user.Id = currentUserId ∨ isChannelInList channels user.Id = true) →
        openChannelByUserChannels currentUserId channels user = channels) := by
  have hstep : openChannelByUserChannels currentUserId
      (openChannelByUserChannels currentUserId channels user) user
      = openChannelByUserChannels currentUserId channels user := by
    by_cases h1 : user.Id = currentUserId
    · simp [openChannelByUserChannels, h1]
    · by_cases h2 : isChannelInList channels user.Id = true
      · simp [openChannelByUserChannels, h1, h2]
      · have hmem : isChannelInList (channels ++ [⟨user.Id, user.Username⟩]) user.Id = true := by
          simp [isChannelInList]
        simp [openChannelByUserChannels, h1, h2, hmem]
  refine ⟨hstep, by rw [hstep], ?_⟩
  rintro (h | h) <;> simp [openChannelByUserChannels, h]

/-- Witness for C6: viewer id 7, directory `[⟨3, "bob"⟩]`: re-opening bob's
channel appends nothing, and opening it twice equals opening it once. -/
theorem C6_ensureChannel_idempotent_witness :
    openChannelByUserChannels 7 [⟨3, "bob"⟩] ⟨3, "bob"⟩ = [⟨3, "bob"⟩]
    ∧ openChannelByUserChannels 7 (openChannelByUserChannels 7 [] ⟨3, "bob"⟩) ⟨3, "bob"⟩
        = openChannelByUserChannels 7 [] ⟨3, "bob"⟩ :=
  ⟨(C6_ensureChannel_idempotent 7 [⟨3, "bob"⟩] ⟨3, "bob"⟩).2.2 (Or.inr (by decide)),
    (C6_ensureChannel_idempotent 7 [] ⟨3, "bob"⟩).1⟩

/-- `refreshChannelList` (gui.go): the radio-group options displayed after a
channels replacement — the implicit group and notes titles followed by the
title of every channel in the directory, with no filtering. -/
def refreshChannelList (channels : List Channel) : List String :=
  [GROUP_CHANNEL_TITLE, NOTES_CHANNEL_TITLE] ++ channels.map (fun c => c.Title)

/-- The `/get-channels` callback of `initClientCallbacks` (gui.go): the
server-pushed list replaces the directory wholesale. -/
def onGetChannels (app : ChatApplication) (channels : List Channel) : ChatApplication :=
  { app with Channels := channels }

/-- C7 is refuted as frozen: the claim says the group and notes entries are
never duplicated even when the server-pushed list enumerates the viewer's own
channel, but the code performs no dedup.  Viewer id 7; the server pushes the
viewer's own channel `⟨7, "bob"⟩`: the selector then holds two entries
("NOTES" and "bob") that `getChannelId` both resolves to channel 7, and a
pushed channel literally titled "NOTES" makes the title itself appear twice. -/
theorem C7_counterexample :
    refreshChannelList
        (onGetChannels
          { Connected := true, CurrentUser := ⟨7, "bob"⟩, LoggedIn := true,
            CurrentChatId := 0, Channels := [] } [⟨7, "bob"⟩]).Channels
      = ["MAIN", "NOTES", "bob"]
    ∧ getChannelId
        (onGetChannels
          { Connected := true, CurrentUser := ⟨7, "bob"⟩, LoggedIn := true,
            CurrentChatId := 0, Channels := [] } [⟨7, "bob"⟩]) NOTES_CHANNEL_TITLE = 7
    ∧ getChannelId
        (onGetChannels
          { Connected := true, CurrentUser := ⟨7, "bob"⟩, LoggedIn := true,
            CurrentChatId := 0, Channels := [] } [⟨7, "bob"⟩]) "bob" = 7
    ∧ (refreshChannelList [⟨9, "NOTES"⟩]).count NOTES_CHANNEL_TITLE = 2 := by
  decide

/-- C7 (amended): after every replacement (and for every directory value,
appends included) the displayed list starts with the group title then the
notes title; and these two titles each occur exactly once provided no channel
in the directory bears one of the two reserved titles — the code itself
never filters, so a pushed channel bearing a reserved title (or the viewer's
own id) does yield a duplicated entry. -/
theorem C7_channel_list_implicit_first (app : ChatApplication) (channels : List Channel) :
    (refreshChannelList (onGetChannels app channels).Channels).take 2
        = [GROUP_CHANNEL_TITLE, NOTES_CHANNEL_TITLE]
    ∧ ((∀ c ∈ channels, c.Title ≠ GROUP_CHANNEL_TITLE ∧ c.Title ≠ NOTES_CHANNEL_TITLE) →
        (refreshChannelList (onGetChannels app channels).Channels).count GROUP_CHANNEL_TITLE = 1
        ∧ (refreshChannelList (onGetChannels app channels).Channels).count NOTES_CHANNEL_TITLE = 1) := by
  constructor
  · simp [refreshChannelList, onGetChannels]
  · intro h
    have hg : (channels.map (fun c => c.Title)).count GROUP_CHANNEL_TITLE = 0 := by
      rw [List.count_eq_zero]
      intro hmem
      obtain ⟨c, hc, hct⟩ := List.mem_map.mp hmem
      exact (h c hc).1 hct
    have hn : (channels.map (fun c => c.Title)).count NOTES_CHANNEL_TITLE = 0 := by
      rw [List.count_eq_zero]
      intro hmem
      obtain ⟨c, hc, hct⟩ := List.mem_map.mp hmem
      exact (h c hc).2 hct
    constructor
    · simp only [refreshChannelList, onGetChannels, List.count_append, hg]
      decide
    · simp only [refreshChannelList, onGetChannels, List.count_append, hn]
      decide

/-- Witness for C7: a pushed list of two ordinary user channels keeps MAIN
and NOTES as the unique first two displayed entries. -/
theorem C7_channel_list_implicit_first_witness :
    (refreshChannelList
        (onGetChannels
          { Connected := true, CurrentUser := ⟨7, "bob"⟩, LoggedIn := true,
            CurrentChatId := 0, Channels := [] } [⟨3, "alice"⟩, ⟨4, "carol"⟩]).Channels).take 2
        = [GROUP_CHANNEL_TITLE, NOTES_CHANNEL_TITLE]
    ∧ (refreshChannelList
        (onGetChannels
          { Connected := true, CurrentUser := ⟨7, "bob"⟩, LoggedIn := true,
            CurrentChatId := 0, Channels := [] } [⟨3, "alice"⟩, ⟨4, "carol"⟩]).Channels).count
        NOTES_CHANNEL_TITLE = 1 :=
  ⟨(C7_channel_list_implicit_first
      { Connected := true, CurrentUser := ⟨7, "bob"⟩, LoggedIn := true,
        CurrentChatId := 0, Channels := [] } [⟨3, "alice"⟩, ⟨4, "carol"⟩]).1,
    ((C7_channel_list_implicit_first
      { Connected := true, CurrentUser := ⟨7, "bob"⟩, LoggedIn := true,
        CurrentChatId := 0, Channels := [] } [⟨3, "alice"⟩, ⟨4, "carol"⟩]).2
      (by decide)).2⟩

/- ### Settings file (gui.go: saveDefaultHostSettings,
getHostDataFromSettingsFile) -/

structure HostData where
  host : String
  port : Int
  deriving Repr, DecidableEq

/-- State of `settings.json` as the two functions observe it: `none` when
reading fails (file absent), `some none` when it reads but does not parse,
`some (some hd)` when it parses to `hd`.  A successful JSON round-trip of a
marshalled `HostData` is assumed. -/
structure FileState where
  content : Option (Option HostData)
  deriving Repr, DecidableEq

/-- `saveDefaultHostSettings` (gui.go): marshals the hardcoded default and
writes it to `settings.json` (write errors are only logged; the successful
write is modelled). -/
def saveDefaultHostSettings (_fs : FileState) : FileState :=
  { content := some (some ⟨DEFAULT_HOST, DEFAULT_PORT⟩) }

/-- `getHostDataFromSettingsFile` (gui.go): returns `(host, port)` and the
resulting file state.  A read failure or a parse failure writes the default
back and returns the default; neither is surfaced as an error. -/
def getHostDataFromSettingsFile (fs : FileState) : (String × Int) × FileState :=
  match fs.content with
  | none => ((DEFAULT_HOST, DEFAULT_PORT), saveDefaultHostSettings fs)
  | some none => ((DEFAULT_HOST, DEFAULT_PORT), saveDefaultHostSettings fs)
  | some (some hostData) => ((hostData.host, hostData.port), fs)

/-- C8: when the settings file is absent or unparsable, loading returns the
hardcoded default (`localhost`, 3811) and writes that default back, so a
second load returns the same default from the now-present file and changes
nothing further; the failure is never surfaced. -/
theorem C8_settings_default (fs : FileState)
    (h : fs.content = none ∨ fs.content = some none) :
    (getHostDataFromSettingsFile fs).1 = (DEFAULT_HOST, DEFAULT_PORT)
    ∧ ((getHostDataFromSettingsFile fs).2).content
        = some (some ⟨DEFAULT_HOST, DEFAULT_PORT⟩)
    ∧ (getHostDataFromSettingsFile ((getHostDataFromSettingsFile fs).2)).1
        = (DEFAULT_HOST, DEFAULT_PORT)
    ∧ (getHostDataFromSettingsFile ((getHostDataFromSettingsFile fs).2)).2
        = (getHostDataFromSettingsFile fs).2 := by
  rcases h with h | h <;>
    simp [getHostDataFromSettingsFile, saveDefaultHostSettings, h]

/-- Witness for C8 at the absent-file state. -/
theorem C8_settings_default_witness :
    (getHostDataFromSettingsFile ⟨none⟩).1 = (DEFAULT_HOST, DEFAULT_PORT)
    ∧ (getHostDataFromSettingsFile ((getHostDataFromSettingsFile ⟨none⟩).2)).1
        = (DEFAULT_HOST, DEFAULT_PORT) :=
  ⟨(C8_settings_default ⟨none⟩ (Or.inl rfl)).1,
    (C8_settings_default ⟨none⟩ (Or.inl rfl)).2.2.1⟩

/- ### User-action preconditions (gui.go: sendMessage, loadMessages) -/

/-- An event emitted to the transport by a user action. -/
inductive EmittedEvent where
  | message (author : User) (chatId : Int) (text : String)
  | getMessages (chatId : Int) (requester : User)
  deriving Repr, DecidableEq

/-- `sendMessage` (gui.go): emits `/message` when connected and logged in;
otherwise emits nothing and shows one error notification (not-logged-in
checked first).  The session state and displayed list are untouched on the
failure paths (the function mutates neither). -/
def sendMessage (app : ChatApplication) (text : String) :
    List EmittedEvent × List String :=
  let user := app.CurrentUser
  if app.Connected && app.LoggedIn then
    ([EmittedEvent.message user app.CurrentChatId text], [])
  else if !app.LoggedIn then
    ([], ["You are not logged in."])
  else
    ([], ["You are not connected to the server."])

/-- `loadMessages` (gui.go): returns silently — no emit and, notably, no
notification — unless connected and logged in, in which case it emits
`/get-messages`. -/
def loadMessages (app : ChatApplication) (chatId : Int) :
    List EmittedEvent × List String :=
  if !app.Connected || !app.LoggedIn then ([], [])
  else ([EmittedEvent.getMessages chatId app.CurrentUser], [])

/-- C9 is refuted as frozen: the claim says every user action attempted while
disconnected or not logged in is surfaced as a notification, but
`loadMessages` on a disconnected, logged-out session emits nothing and shows
no notification at all. -/
theorem C9_counterexample :
    loadMessages
        { Connected := false, CurrentUser := ⟨7, "bob"⟩, LoggedIn := false,
          CurrentChatId := 0, Channels := [] } 5 = ([], []) := by
  decide

/-- C9 (amended): `sendMessage` emits the message iff both `Connected` and
`LoggedIn` hold, and on a failed precondition emits nothing and surfaces
exactly one notification; `loadMessages` under a failed precondition emits
nothing but returns silently, with no notification.  Neither failure path
touches the session state or the displayed-message list (both functions are
read-only on the state). -/
theorem C9_preconditions (app : ChatApplication) (text : String) (chatId : Int) :
    ((sendMessage app text).1 ≠ [] ↔ (app.Connected = true ∧ app.LoggedIn = true))
    ∧ (¬(app.Connected = true ∧ app.LoggedIn = true) →
        (sendMessage app text).1 = [] ∧ (sendMessage app text).2.length = 1)
    ∧ (¬(app.Connected = true ∧ app.LoggedIn = true) →
        loadMessages app chatId = ([], []))
    ∧ (app.Connected = true ∧ app.LoggedIn = true →
        (sendMessage app text)
          = ([EmittedEvent.message app.CurrentUser app.CurrentChatId text], [])
        ∧ loadMessages app chatId
          = ([EmittedEvent.getMessages chatId app.CurrentUser], [])) := by
  cases hc : app.Connected <;> cases hl : app.LoggedIn <;>
    simp [sendMessage, loadMessages, hc, hl]

/-- Witness for C9: a connected, logged-in session emits; a disconnected one
sends nothing, with one notification from `sendMessage` and silence from
`loadMessages`. -/
theorem C9_preconditions_witness :
    (sendMessage
        { Connected := true, CurrentUser := ⟨7, "bob"⟩, LoggedIn := true,
          CurrentChatId := 0, Channels := [] } "hi")
      = ([EmittedEvent.message ⟨7, "bob"⟩ 0 "hi"], [])
    ∧ (sendMessage
        { Connected := false, CurrentUser := ⟨7, "bob"⟩, LoggedIn := false,
          CurrentChatId := 0, Channels := [] } "hi").1 = []
    ∧ (sendMessage
        { Connected := false, CurrentUser := ⟨7, "bob"⟩, LoggedIn := false,
          CurrentChatId := 0, Channels := [] } "hi").2.length = 1
    ∧ loadMessages
        { Connected := false, CurrentUser := ⟨7, "bob"⟩, LoggedIn := false,
          CurrentChatId := 0, Channels := [] } 5 = ([], []) :=
  ⟨((C9_preconditions
      { Connected := true, CurrentUser := ⟨7, "bob"⟩, LoggedIn := true,
        CurrentChatId := 0, Channels := [] } "hi" 5).2.2.2 (by decide)).1,
    ((C9_preconditions
      { Connected := false, CurrentUser := ⟨7, "bob"⟩, LoggedIn := false,
        CurrentChatId := 0, Channels := [] } "hi" 5).2.1 (by decide)).1,
    ((C9_preconditions
      { Connected := false, CurrentUser := ⟨7, "bob"⟩, LoggedIn := false,
        CurrentChatId := 0, Channels := [] } "hi" 5).2.1 (by decide)).2,
    (C9_preconditions
      { Connected := false, CurrentUser := ⟨7, "bob"⟩, LoggedIn := false,
        CurrentChatId := 0, Channels := [] } "hi" 5).2.2.1 (by decide)⟩
